import Mathlib

/-!
Verification of the fitness-tracker module (`homework.py`).

The module computes distance, mean speed and spent calories for three
workout kinds (running, sports walking, swimming), renders an information
message, and provides a factory `read_package` mapping a workout-type code
and a numeric argument list to a training instance.

Embedding choices:
* every numeric value is modelled as a rational number (`ℚ`); the Python
  source performs only `+ - * / **2` on literals with finite decimal
  expansions, so every formula carries over verbatim;
* the class hierarchy `Training` / `Running` / `SportsWalking` / `Swimming`
  becomes a sum type with one constructor per class, and each method
  becomes a dispatch function matching on the constructor, exactly as the
  Python method-resolution order dispatches;
* `Training.get_spent_calories` raises `NotImplementedError` in the base
  class, so the method is modelled in `Except`, with a `notImplemented`
  error for the base constructor;
* the factory `read_package` raises `TypeError` for an unknown code and
  Python would raise on an arity mismatch of the positional unpacking
  `(*data)`; both become `Except` errors;
* the `{:.3f}` fixed-point formatting of `InfoMessage.get_message` is
  modelled by `formatFixed3`, rounding half-to-even as Python does and
  rendering exactly three decimal digits.
-/

/-- Error kinds of the module: the `NotImplementedError` raised by the base
class calorie method, the `TypeError` raised by `read_package` for an
unknown workout-type code, and the argument-count mismatch of the
positional unpacking in the factory. -/
inductive TrainingError where
  | notImplemented
  | unknownWorkoutType
  | invalidArguments
  deriving DecidableEq, Repr

/-- `InfoMessage`: the record built by `show_training_info`, fields exactly
as in the Python dataclass. -/
structure InfoMessage where
  training_type : String
  duration : ℚ
  distance : ℚ
  speed : ℚ
  calories : ℚ
  deriving DecidableEq, Repr

/-- The class hierarchy as a sum type: the abstract base `Training` and its
three subclasses, each constructor carrying the fields its `__init__`
stores on `self`. -/
inductive Training where
  | base (action duration weight : ℚ)
  | running (action duration weight : ℚ)
  | sportsWalking (action duration weight height : ℚ)
  | swimming (action duration weight length_pool count_pool : ℚ)
  deriving DecidableEq, Repr

namespace Training

/-- The `action` field stored by `Training.__init__` (shared by all
subclasses through `super().__init__`). -/
def action : Training → ℚ
  | .base a _ _ => a
  | .running a _ _ => a
  | .sportsWalking a _ _ _ => a
  | .swimming a _ _ _ _ => a

/-- The `duration` field stored by `Training.__init__`. -/
def duration : Training → ℚ
  | .base _ d _ => d
  | .running _ d _ => d
  | .sportsWalking _ d _ _ => d
  | .swimming _ d _ _ _ => d

/-- The `weight` field stored by `Training.__init__`. -/
def weight : Training → ℚ
  | .base _ _ w => w
  | .running _ _ w => w
  | .sportsWalking _ _ w _ => w
  | .swimming _ _ w _ _ => w

/-- Class constant `M_IN_KM = 1000`. -/
def M_IN_KM : ℚ := 1000

/-- Class constant `MIN_IN_H = 60`. -/
def MIN_IN_H : ℚ := 60

/-- Class attribute `LEN_STEP`: `0.65` on the base class, overridden to
`1.38` by `Swimming`. -/
def LEN_STEP : Training → ℚ
  | .swimming _ _ _ _ _ => 1.38
  | _ => 0.65

/-- `Training.get_distance`: `self.action * self.LEN_STEP / self.M_IN_KM`,
inherited unchanged by every subclass (only the `LEN_STEP` attribute
differs). -/
def get_distance (t : Training) : ℚ :=
  t.action * t.LEN_STEP / M_IN_KM

/-- `get_mean_speed`: the base class computes
`self.get_distance() / self.duration`; `Swimming` overrides it with
`self.length_pool * self.count_pool / self.M_IN_KM / self.duration`. -/
def get_mean_speed : Training → ℚ
  | .swimming _ d _ lp cp => lp * cp / M_IN_KM / d
  | t => t.get_distance / t.duration

/-- Class constant `Running.CALORIES_MEAN_SPEED_MULTIPLIER = 18`. -/
def CALORIES_MEAN_SPEED_MULTIPLIER : ℚ := 18

/-- Class constant `Running.CALORIES_MEAN_SPEED_SHIFT = 1.79`. -/
def CALORIES_MEAN_SPEED_SHIFT : ℚ := 1.79

/-- Class constant `SportsWalking.CALORIES_SPEED_HEIGHT_MULTIPLIER = 0.029`. -/
def CALORIES_SPEED_HEIGHT_MULTIPLIER : ℚ := 0.029

/-- Class constant `SportsWalking.CALORIES_WEIGHT_MULTIPLIER = 0.035`. -/
def CALORIES_WEIGHT_MULTIPLIER : ℚ := 0.035

/-- Class constant `SportsWalking.KMH_IN_MSEC = 0.278`. -/
def KMH_IN_MSEC : ℚ := 0.278

/-- Class constant `SportsWalking.CM_IN_M = 100`. -/
def CM_IN_M : ℚ := 100

/-- Class constant `Swimming.CALORIES_COEF1 = 1.1`. -/
def CALORIES_COEF1 : ℚ := 1.1

/-- Class constant `Swimming.CALORIES_COEF2 = 2`. -/
def CALORIES_COEF2 : ℚ := 2

/-- `get_spent_calories`: raises `NotImplementedError` on the base class;
each subclass overrides it with its own formula, copied verbatim from the
source. -/
def get_spent_calories : Training → Except TrainingError ℚ
  | .base _ _ _ => .error .notImplemented
  | t@(.running _ d w) =>
      .ok ((CALORIES_MEAN_SPEED_MULTIPLIER * t.get_mean_speed
              + CALORIES_MEAN_SPEED_SHIFT)
            * w / M_IN_KM
            * (d * MIN_IN_H))
  | t@(.sportsWalking _ d w h) =>
      .ok ((CALORIES_WEIGHT_MULTIPLIER * w
              + ((t.get_mean_speed * KMH_IN_MSEC) ^ 2
                  / (h / CM_IN_M))
                * CALORIES_SPEED_HEIGHT_MULTIPLIER * w)
            * (d * MIN_IN_H))
  | t@(.swimming _ d w _ _) =>
      .ok ((t.get_mean_speed + CALORIES_COEF1)
            * CALORIES_COEF2 * w * d)

/-- `self.__class__.__name__`: the display name placed in the message. -/
def className : Training → String
  | .base _ _ _ => "Training"
  | .running _ _ _ => "Running"
  | .sportsWalking _ _ _ _ => "SportsWalking"
  | .swimming _ _ _ _ _ => "Swimming"

/-- `Training.show_training_info`: builds an `InfoMessage` from the class
name, the duration and the three computed metrics; a `NotImplementedError`
from `get_spent_calories` propagates. -/
def show_training_info (t : Training) : Except TrainingError InfoMessage :=
  t.get_spent_calories.map fun cal =>
    { training_type := t.className
      duration := t.duration
      distance := t.get_distance
      speed := t.get_mean_speed
      calories := cal }

/-- One call of the method `show_training_info`, with the post-call state of
the object made explicit: the body only reads `self` (it contains no
assignment), so the instance after the call is the instance before it. -/
def show_training_info_call (t : Training) :
    Except TrainingError InfoMessage × Training :=
  (t.show_training_info, t)

/-- Whether the instance is of the abstract base class itself rather than
one of the three concrete subclasses. -/
def isBase : Training → Bool
  | .base _ _ _ => true
  | _ => false

end Training

/-- `read_package`: looks the workout-type code up in the dictionary
`{SWM: Swimming, RUN: Running, WLK: SportsWalking}` and constructs the
class with the positional arguments `(*data)`; an unknown code raises
`TypeError`, a wrong argument count fails the positional unpacking. -/
def read_package (workout_type : String) (data : List ℚ) :
    Except TrainingError Training :=
  if workout_type = "SWM" then
    match data with
    | [a, d, w, lp, cp] => .ok (.swimming a d w lp cp)
    | _ => .error .invalidArguments
  else if workout_type = "RUN" then
    match data with
    | [a, d, w] => .ok (.running a d w)
    | _ => .error .invalidArguments
  else if workout_type = "WLK" then
    match data with
    | [a, d, w, h] => .ok (.sportsWalking a d w h)
    | _ => .error .invalidArguments
  else
    .error .unknownWorkoutType

/-! ### Fixed-point formatting (`{:.3f}`) -/

/-- Round a rational to the nearest integer, ties to even, as Python's
float formatting does. -/
def roundHalfEven (q : ℚ) : ℤ :=
  let n := ⌊q⌋
  let frac := q - n
  if frac > 1 / 2 then n + 1
  else if frac < 1 / 2 then n
  else if n % 2 = 0 then n else n + 1

/-- Render a natural number below 1000 as exactly three decimal digits. -/
def threeDigits (r : ℕ) : String :=
  toString (r / 100) ++ toString (r / 10 % 10) ++ toString (r % 10)

/-- Format a nonnegative rational in fixed-point notation with exactly
three digits after the decimal point (the scaled value rounded
half-to-even), as `{:.3f}` does for nonnegative floats. -/
def formatFixed3Nonneg (q : ℚ) : String :=
  let m := (roundHalfEven (q * 1000)).toNat
  toString (m / 1000) ++ "." ++ threeDigits (m % 1000)

/-- `{:.3f}`: fixed-point, three decimal digits, a leading minus sign for
negative values. -/
def formatFixed3 (q : ℚ) : String :=
  if q < 0 then "-" ++ formatFixed3Nonneg (-q) else formatFixed3Nonneg q

/-- `InfoMessage.get_message`: substitutes the five fields into the class
template `INF_MESSAGE` (Russian label text, `{:.3f}` on the four numeric
fields). -/
def InfoMessage.get_message (msg : InfoMessage) : String :=
  "Тип тренировки: " ++ msg.training_type
    ++ "; Длительность: " ++ formatFixed3 msg.duration
    ++ " ч.; Дистанция: " ++ formatFixed3 msg.distance
    ++ " км; Ср. скорость: " ++ formatFixed3 msg.speed
    ++ " км/ч; Потрачено ккал: " ++ formatFixed3 msg.calories ++ "."

/-! ### Claims -/

/-- C1: for every Running instance with `action >= 0`, `duration > 0`,
`weight > 0`, `get_distance()` returns `action * 0.65 / 1000`,
`get_mean_speed()` returns `get_distance() / duration`, and
`get_spent_calories()` returns
`(18 * get_mean_speed() + 1.79) * weight / 1000 * (duration * 60)`. -/
theorem running_formulas (a d w : ℚ) (ha : 0 ≤ a) (hd : 0 < d) (hw : 0 < w) :
    (Training.running a d w).get_distance = a * 0.65 / 1000 ∧
    (Training.running a d w).get_mean_speed
      = (Training.running a d w).get_distance / d ∧
    (Training.running a d w).get_spent_calories
      = .ok ((18 * (Training.running a d w).get_mean_speed + 1.79)
              * w / 1000 * (d * 60)) := by
  refine ⟨rfl, rfl, ?_⟩
  simp only [Training.get_spent_calories, Training.CALORIES_MEAN_SPEED_MULTIPLIER,
    Training.CALORIES_MEAN_SPEED_SHIFT, Training.M_IN_KM, Training.MIN_IN_H]

/-- Witness for C1 at the driver's RUN package `(15000, 1, 75)`. -/
theorem running_formulas_witness :
    (Training.running 15000 1 75).get_distance = 15000 * 0.65 / 1000 ∧
    (Training.running 15000 1 75).get_mean_speed
      = (Training.running 15000 1 75).get_distance / 1 ∧
    (Training.running 15000 1 75).get_spent_calories
      = .ok ((18 * (Training.running 15000 1 75).get_mean_speed + 1.79)
              * 75 / 1000 * (1 * 60)) :=
  running_formulas 15000 1 75 (by norm_num) (by norm_num) (by norm_num)

/-- C2: for every Swimming instance with `duration > 0`, `get_mean_speed()`
returns `length_pool * count_pool / 1000 / duration`, and the value does not
depend on the `action` field or the step-length constant: two Swimming
instances differing only in `action` have equal mean speed. -/
theorem swimming_mean_speed (a d w lp cp : ℚ) (hd : 0 < d) :
    (Training.swimming a d w lp cp).get_mean_speed = lp * cp / 1000 / d ∧
    ∀ a' : ℚ, (Training.swimming a' d w lp cp).get_mean_speed
      = (Training.swimming a d w lp cp).get_mean_speed := by
  exact ⟨rfl, fun a' => rfl⟩

/-- Witness for C2 at the driver's SWM package `(720, 1, 80, 25, 40)`. -/
theorem swimming_mean_speed_witness :
    (Training.swimming 720 1 80 25 40).get_mean_speed = 25 * 40 / 1000 / 1 ∧
    ∀ a' : ℚ, (Training.swimming a' 1 80 25 40).get_mean_speed
      = (Training.swimming 720 1 80 25 40).get_mean_speed :=
  swimming_mean_speed 720 1 80 25 40 (by norm_num)

/-- C3: for every Swimming instance with `duration > 0`,
`get_spent_calories()` returns
`(get_mean_speed() + 1.1) * 2 * weight * duration`; and the instance the
factory builds from code `SWM` with arguments `[720, 1, 80, 25, 40]` has
mean speed `1.0` km/h and spent calories `336.0`. -/
theorem swimming_calories (a d w lp cp : ℚ) (hd : 0 < d) :
    (Training.swimming a d w lp cp).get_spent_calories
      = .ok (((Training.swimming a d w lp cp).get_mean_speed + 1.1)
              * 2 * w * d) ∧
    read_package "SWM" [720, 1, 80, 25, 40]
      = .ok (Training.swimming 720 1 80 25 40) ∧
    (Training.swimming 720 1 80 25 40).get_mean_speed = 1 ∧
    (Training.swimming 720 1 80 25 40).get_spent_calories = .ok 336 := by
  refine ⟨?_, rfl, ?_, ?_⟩
  · simp only [Training.get_spent_calories, Training.CALORIES_COEF1,
      Training.CALORIES_COEF2]
  · norm_num [Training.get_mean_speed, Training.M_IN_KM]
  · norm_num [Training.get_spent_calories, Training.get_mean_speed,
      Training.M_IN_KM, Training.CALORIES_COEF1, Training.CALORIES_COEF2]

/-- Witness for C3 at the driver's SWM package. -/
theorem swimming_calories_witness :
    (Training.swimming 720 1 80 25 40).get_spent_calories
      = .ok (((Training.swimming 720 1 80 25 40).get_mean_speed + 1.1)
              * 2 * 80 * 1) ∧
    read_package "SWM" [720, 1, 80, 25, 40]
      = .ok (Training.swimming 720 1 80 25 40) ∧
    (Training.swimming 720 1 80 25 40).get_mean_speed = 1 ∧
    (Training.swimming 720 1 80 25 40).get_spent_calories = .ok 336 :=
  swimming_calories 720 1 80 25 40 (by norm_num)

/-- C4: for every SportsWalking instance with `duration > 0`, `height > 0`,
`get_spent_calories()` returns
`(0.035 * weight + ((get_mean_speed() * 0.278)^2 / (height / 100)) * 0.029
* weight) * (duration * 60)`. -/
theorem walking_calories (a d w h : ℚ) (hd : 0 < d) (hh : 0 < h) :
    (Training.sportsWalking a d w h).get_spent_calories
      = .ok ((0.035 * w
                + (((Training.sportsWalking a d w h).get_mean_speed * 0.278) ^ 2
                    / (h / 100))
                  * 0.029 * w)
              * (d * 60)) := by
  simp only [Training.get_spent_calories, Training.CALORIES_WEIGHT_MULTIPLIER,
    Training.CALORIES_SPEED_HEIGHT_MULTIPLIER, Training.KMH_IN_MSEC,
    Training.CM_IN_M, Training.MIN_IN_H]

/-- Witness for C4 at the driver's WLK package `(9000, 1, 75, 180)`. -/
theorem walking_calories_witness :
    (Training.sportsWalking 9000 1 75 180).get_spent_calories
      = .ok ((0.035 * 75
                + (((Training.sportsWalking 9000 1 75 180).get_mean_speed
                      * 0.278) ^ 2
                    / (180 / 100))
                  * 0.029 * 75)
              * (1 * 60)) :=
  walking_calories 9000 1 75 180 (by norm_num) (by norm_num)

/-- `{:.3f}` on the value `1` renders as `1.000`. -/
theorem formatFixed3_one : formatFixed3 1 = "1.000" := by
  norm_num [formatFixed3, formatFixed3Nonneg, roundHalfEven, threeDigits]
  rfl

/-- `{:.3f}` on the value `9.75` renders as `9.750`. -/
theorem formatFixed3_975 : formatFixed3 9.75 = "9.750" := by
  norm_num [formatFixed3, formatFixed3Nonneg, roundHalfEven, threeDigits]
  rfl

/-- `{:.3f}` on the value `700.544` renders as `700.544`. -/
theorem formatFixed3_700544 : formatFixed3 700.544 = "700.544" := by
  norm_num [formatFixed3, formatFixed3Nonneg, roundHalfEven, threeDigits]
  rfl

/-- The message rendered from the record
`(Running, 1.0, 9.75, 9.75, 700.544)` of the formatter-exactness example. -/
theorem get_message_example :
    (InfoMessage.mk "Running" 1 9.75 9.75 700.544).get_message
      = "Тип тренировки: Running; Длительность: 1.000 ч.; Дистанция: 9.750 км; Ср. скорость: 9.750 км/ч; Потрачено ккал: 700.544." := by
  simp only [InfoMessage.get_message]
  rw [formatFixed3_one, formatFixed3_975, formatFixed3_700544]
  rfl

/-- C5 counterexample: the formatter does not produce the English template
of the claim; on the formatter-exactness example it yields the Russian
labels of the source's `INF_MESSAGE`. -/
theorem get_message_not_english :
    (InfoMessage.mk "Running" 1 9.75 9.75 700.544).get_message
      ≠ "Training type: Running; Duration: 1.000 h.; Distance: 9.750 km; Avg. speed: 9.750 km/h; Calories burned: 700.544." := by
  rw [get_message_example]
  decide

/-- C5 (amended): the formatter substitutes the five fields into the
source's Russian template, with every float field rendered fixed-point with
exactly three decimal places and `training_type` substituted verbatim;
on the formatter-exactness example record it yields exactly the template
with `1.000`, `9.750`, `9.750`, `700.544`. -/
theorem get_message_format :
    (∀ msg : InfoMessage, msg.get_message
        = "Тип тренировки: " ++ msg.training_type
            ++ "; Длительность: " ++ formatFixed3 msg.duration
            ++ " ч.; Дистанция: " ++ formatFixed3 msg.distance
            ++ " км; Ср. скорость: " ++ formatFixed3 msg.speed
            ++ " км/ч; Потрачено ккал: " ++ formatFixed3 msg.calories
            ++ ".") ∧
    (InfoMessage.mk "Running" 1 9.75 9.75 700.544).get_message
      = "Тип тренировки: Running; Длительность: 1.000 ч.; Дистанция: 9.750 км; Ср. скорость: 9.750 км/ч; Потрачено ккал: 700.544." :=
  ⟨fun _ => rfl, get_message_example⟩

/-- C6: the factory maps `SWM`/`RUN`/`WLK` to the corresponding variant and
fails with the unknown-workout-type error on every other code, whatever the
argument list; in particular on `XYZ` with `[1, 2, 3]`. -/
theorem read_package_dispatch (wt : String) (data : List ℚ)
    (h1 : wt ≠ "SWM") (h2 : wt ≠ "RUN") (h3 : wt ≠ "WLK") :
    read_package wt data = .error .unknownWorkoutType ∧
    (∀ a d w lp cp : ℚ, read_package "SWM" [a, d, w, lp, cp]
        = .ok (.swimming a d w lp cp)) ∧
    (∀ a d w : ℚ, read_package "RUN" [a, d, w] = .ok (.running a d w)) ∧
    (∀ a d w h : ℚ, read_package "WLK" [a, d, w, h]
        = .ok (.sportsWalking a d w h)) ∧
    read_package "XYZ" [1, 2, 3] = .error .unknownWorkoutType := by
  refine ⟨?_, fun a d w lp cp => rfl, fun a d w => rfl, fun a d w h => rfl, rfl⟩
  simp [read_package, h1, h2, h3]

/-- Witness for C6 at the error-scenario code `XYZ`. -/
theorem read_package_dispatch_witness :
    read_package "XYZ" [1, 2, 3] = .error .unknownWorkoutType ∧
    (∀ a d w lp cp : ℚ, read_package "SWM" [a, d, w, lp, cp]
        = .ok (.swimming a d w lp cp)) ∧
    (∀ a d w : ℚ, read_package "RUN" [a, d, w] = .ok (.running a d w)) ∧
    (∀ a d w h : ℚ, read_package "WLK" [a, d, w, h]
        = .ok (.sportsWalking a d w h)) ∧
    read_package "XYZ" [1, 2, 3] = .error .unknownWorkoutType :=
  read_package_dispatch "XYZ" [1, 2, 3] (by decide) (by decide) (by decide)

/-- C7: `get_spent_calories` on a base `Training` instance always fails with
the not-implemented error, for every `action`, `duration`, `weight`; and the
error is unreachable through the factory: every instance `read_package`
returns is one of the three variants, none of which is the base class. -/
theorem base_calories_guard :
    (∀ a d w : ℚ, (Training.base a d w).get_spent_calories
        = .error .notImplemented) ∧
    ∀ (wt : String) (data : List ℚ) (t : Training),
      read_package wt data = .ok t → t.isBase = false := by
  refine ⟨fun a d w => rfl, ?_⟩
  intro wt data t h
  unfold read_package at h
  split_ifs at h <;> split at h <;>
    first
      | exact Except.noConfusion h
      | (injection h with h; subst h; rfl)

/-- Witness for C7: the guard on a concrete base instance, and the variant
built by the factory for the driver's RUN package. -/
theorem base_calories_guard_witness :
    (Training.base 720 1 80).get_spent_calories = .error .notImplemented ∧
    (Training.running 15000 1 75).isBase = false :=
  ⟨base_calories_guard.1 720 1 80,
   base_calories_guard.2 "RUN" [15000, 1, 75] (.running 15000 1 75) rfl⟩

/-- C8: for two SportsWalking instances agreeing on `action`,
`duration > 0`, `weight > 0`, with positive mean speed and both heights
positive, the one with the strictly larger height burns strictly fewer
calories. -/
theorem walking_calories_height_antitone (a d w h1 h2 c1 c2 : ℚ)
    (hd : 0 < d) (hw : 0 < w)
    (hs : 0 < (Training.sportsWalking a d w h1).get_mean_speed)
    (hh1 : 0 < h1) (hh2 : 0 < h2) (hlt : h1 < h2)
    (hc1 : (Training.sportsWalking a d w h1).get_spent_calories = .ok c1)
    (hc2 : (Training.sportsWalking a d w h2).get_spent_calories = .ok c2) :
    c2 < c1 := by
  injection hc1 with hc1
  injection hc2 with hc2
  subst hc1
  subst hc2
  have hv : (Training.sportsWalking a d w h2).get_mean_speed
      = (Training.sportsWalking a d w h1).get_mean_speed := rfl
  rw [hv]
  set v := (Training.sportsWalking a d w h1).get_mean_speed with hvdef
  have hX : (0 : ℚ) < (v * Training.KMH_IN_MSEC) ^ 2 :=
    pow_pos (mul_pos hs (by norm_num [Training.KMH_IN_MSEC])) 2
  have hCM : (0 : ℚ) < Training.CM_IN_M := by norm_num [Training.CM_IN_M]
  have key : (v * Training.KMH_IN_MSEC) ^ 2 / (h2 / Training.CM_IN_M)
      < (v * Training.KMH_IN_MSEC) ^ 2 / (h1 / Training.CM_IN_M) :=
    div_lt_div_of_pos_left hX (div_pos hh1 hCM)
      ((div_lt_div_iff_of_pos_right hCM).mpr hlt)
  have inner :
      Training.CALORIES_WEIGHT_MULTIPLIER * w
          + (v * Training.KMH_IN_MSEC) ^ 2 / (h2 / Training.CM_IN_M)
            * Training.CALORIES_SPEED_HEIGHT_MULTIPLIER * w
        < Training.CALORIES_WEIGHT_MULTIPLIER * w
            + (v * Training.KMH_IN_MSEC) ^ 2 / (h1 / Training.CM_IN_M)
              * Training.CALORIES_SPEED_HEIGHT_MULTIPLIER * w := by
    apply add_lt_add_left
    apply mul_lt_mul_of_pos_right _ hw
    exact mul_lt_mul_of_pos_right key
      (by norm_num [Training.CALORIES_SPEED_HEIGHT_MULTIPLIER])
  exact mul_lt_mul_of_pos_right inner
    (mul_pos hd (by norm_num [Training.MIN_IN_H]))

/-- Witness for C8: the driver's WLK package `(9000, 1, 75, 180)` against
the same walker with height `190`. -/
theorem walking_calories_height_antitone_witness :
    (128880629109 / 380000000 : ℚ) < 13970069901 / 40000000 :=
  walking_calories_height_antitone 9000 1 75 180 190
    (13970069901 / 40000000) (128880629109 / 380000000)
    (by norm_num) (by norm_num)
    (by norm_num [Training.get_mean_speed, Training.get_distance,
      Training.action, Training.duration, Training.LEN_STEP, Training.M_IN_KM])
    (by norm_num) (by norm_num) (by norm_num)
    (by norm_num [Training.get_spent_calories, Training.get_mean_speed,
      Training.get_distance, Training.action, Training.duration,
      Training.LEN_STEP, Training.M_IN_KM, Training.MIN_IN_H,
      Training.CALORIES_WEIGHT_MULTIPLIER,
      Training.CALORIES_SPEED_HEIGHT_MULTIPLIER, Training.KMH_IN_MSEC,
      Training.CM_IN_M])
    (by norm_num [Training.get_spent_calories, Training.get_mean_speed,
      Training.get_distance, Training.action, Training.duration,
      Training.LEN_STEP, Training.M_IN_KM, Training.MIN_IN_H,
      Training.CALORIES_WEIGHT_MULTIPLIER,
      Training.CALORIES_SPEED_HEIGHT_MULTIPLIER, Training.KMH_IN_MSEC,
      Training.CM_IN_M])

/-- C9: for every variant instance with positive duration, calling
`show_training_info` twice in sequence yields identical records, and the
call leaves the instance unchanged (the method reads `self` and assigns
nothing). -/
theorem show_training_info_idempotent (t : Training)
    (hvar : t.isBase = false) (hd : 0 < t.duration) :
    (Training.show_training_info_call t).1
      = (Training.show_training_info_call
          ((Training.show_training_info_call t).2)).1 ∧
    (Training.show_training_info_call t).2 = t :=
  ⟨rfl, rfl⟩

/-- Witness for C9 at the driver's RUN package. -/
theorem show_training_info_idempotent_witness :
    (Training.show_training_info_call (.running 15000 1 75)).1
      = (Training.show_training_info_call
          ((Training.show_training_info_call (.running 15000 1 75)).2)).1 ∧
    (Training.show_training_info_call (.running 15000 1 75)).2
      = .running 15000 1 75 :=
  show_training_info_idempotent (.running 15000 1 75) rfl
    (by norm_num [Training.duration])

/-- C10: every Swimming instance's `get_distance()` is
`action * 1.38 / 1000` (the overridden `LEN_STEP`, not the default `0.65`),
and this is the distance field `show_training_info` places in the record;
on the driver's SWM package the record is
`(Swimming, 1, 0.9936, 1, 336)`, whose speed `1` differs from its distance
divided by its duration. -/
theorem swimming_distance_step_length :
    (∀ a d w lp cp : ℚ, (Training.swimming a d w lp cp).get_distance
        = a * 1.38 / 1000) ∧
    (∀ (a d w lp cp : ℚ) (info : InfoMessage),
      (Training.swimming a d w lp cp).show_training_info = .ok info →
      info.distance = (Training.swimming a d w lp cp).get_distance) ∧
    (Training.swimming 720 1 80 25 40).show_training_info
      = .ok (InfoMessage.mk "Swimming" 1 (621 / 625) 1 336) ∧
    (1 : ℚ) ≠ (621 / 625 : ℚ) / 1 := by
  refine ⟨fun a d w lp cp => rfl, ?_, ?_, by norm_num⟩
  · intro a d w lp cp info h
    simp only [Training.show_training_info, Training.get_spent_calories,
      Except.map] at h
    injection h with h
    subst h
    rfl
  · norm_num [Training.show_training_info, Training.get_spent_calories,
      Training.get_mean_speed, Training.get_distance, Training.action,
      Training.duration, Training.LEN_STEP, Training.M_IN_KM,
      Training.CALORIES_COEF1, Training.CALORIES_COEF2, Training.className,
      Except.map, InfoMessage.mk.injEq]

/-- Witness for C10: the record field equality at the driver's SWM
package. -/
theorem swimming_distance_step_length_witness :
    (InfoMessage.mk "Swimming" 1 (621 / 625) 1 336).distance
      = (Training.swimming 720 1 80 25 40).get_distance :=
  swimming_distance_step_length.2.1 720 1 80 25 40
    (InfoMessage.mk "Swimming" 1 (621 / 625) 1 336)
    swimming_distance_step_length.2.2.1
